import Mathlib

/-!
Verification of the conversation engine in `pylib/anki/conversation/`.

This file shallowly embeds the Python modules `validation.py`, `types.py`,
`planner.py`, `gateway.py`, `bands.py`, `collocations.py`, `grammar.py`,
`wrap.py` and `telemetry.py` as Lean definitions, and proves or refutes the
specification's claims about them.

Modelling conventions:
- Python `str` is Lean `String`; character-level work happens on `String.data`.
- Python `dict` is an insertion-ordered association list with unique keys;
  `pyInsert`/`lookupA` implement the dict write/read semantics.
- Python `int` is `Int`; Python `float` is `ℚ` for the planner/wrap scores
  (all exact arithmetic there) and `ℝ` for the forgetting curve in `bands.py`
  (which uses real powers).
- Stateful methods become functions returning the updated state; database
  writes are returned as an explicit list of written rows.
-/

namespace Anki

/-- First-match association-list lookup (Python `dict.get`). -/
def lookupA {β : Type} : List (String × β) → String → Option β
  | [], _ => none
  | (k, v) :: rest, key => if k = key then some v else lookupA rest key

/-- Python dict write: update the value in place if the key exists (keeping
its position), otherwise append the new pair at the end. -/
def pyInsert {β : Type} : List (String × β) → String → β → List (String × β)
  | [], key, v => [(key, v)]
  | (k, w) :: rest, key, v =>
    if k = key then (k, v) :: rest else (k, w) :: pyInsert rest key v

/-- Order-preserving deduplication keeping first occurrences
(Python `dict.fromkeys`). -/
def pyDedupAux {α : Type} [DecidableEq α] : List α → List α → List α
  | _, [] => []
  | seen, x :: xs =>
    if x ∈ seen then pyDedupAux seen xs else x :: pyDedupAux (x :: seen) xs

/-- Python `list(dict.fromkeys(l))`. -/
def pyDedup {α : Type} [DecidableEq α] (l : List α) : List α :=
  pyDedupAux [] l

/-- Python slice `l[:n]` with an `int` bound (negative bounds count from the
end, clipping at zero). -/
def pyTake {α : Type} (n : Int) (l : List α) : List α :=
  if n < 0 then l.take (max 0 ((l.length : Int) + n)).toNat else l.take n.toNat

/-- Python whitespace test for `str.strip` / `str.split`. -/
def pyIsSpace (c : Char) : Bool :=
  c = ' ' ∨ c = '\t' ∨ c = '\n' ∨ c = '\x0b' ∨ c = '\x0c' ∨ c = '\r'

/-- Python `str.strip()` (trim leading and trailing whitespace). -/
def pyStrip (s : String) : String :=
  ⟨((s.data.dropWhile pyIsSpace).reverse.dropWhile pyIsSpace).reverse⟩

/-- Python `str.rstrip(chars)`. -/
def pyRstrip (s : String) (chars : List Char) : String :=
  ⟨(s.data.reverse.dropWhile (fun c => c ∈ chars)).reverse⟩

/-- Helper for `pySplitWs`: the accumulator holds the current word reversed. -/
def pySplitWsAux : List Char → List Char → List String
  | [], acc => if acc.isEmpty then [] else [⟨acc.reverse⟩]
  | c :: rest, acc =>
    if pyIsSpace c then
      if acc.isEmpty then pySplitWsAux rest []
      else ⟨acc.reverse⟩ :: pySplitWsAux rest []
    else pySplitWsAux rest (c :: acc)

/-- Python `str.split()` (split on whitespace runs, dropping empty parts). -/
def pySplitWs (l : List Char) : List String :=
  pySplitWsAux l []

/-- Python `" ".join(parts)`. -/
def joinSpace : List String → String
  | [] => ""
  | [s] => s
  | s :: rest => s ++ " " ++ joinSpace rest

/-- Python `",".join(parts)`. -/
def joinComma : List String → String
  | [] => ""
  | [s] => s
  | s :: rest => s ++ "," ++ joinComma rest

/-- Python `needle.isSuffixOf token`-style `str.endswith`. -/
def pyEndsWith (s t : String) : Bool :=
  t.data.isSuffixOf s.data

/-- Python `str.isdigit` (non-empty and every character a digit; the texts
here only involve ASCII digits). -/
def pyIsDigit (s : String) : Bool :=
  ¬ s.data.isEmpty ∧ s.data.all Char.isDigit

/-- Python `str.startswith`. -/
def pyStartsWith (s t : String) : Bool :=
  t.data.isPrefixOf s.data

/-- Python `str.removeprefix`. -/
def pyRemoveOnePre (s t : String) : String :=
  if pyStartsWith s t then ⟨s.data.drop t.data.length⟩ else s

/-- Insert `x` after every element `y` with `le y x` (the insertion step of a
stable insertion sort). -/
def pyInsertR {α : Type} (le : α → α → Bool) (x : α) : List α → List α
  | [] => [x]
  | y :: ys => if le y x then y :: pyInsertR le x ys else x :: y :: ys

/-- Python `sorted(l)` / `list.sort()` with a total preorder `le`: a stable
ascending sort (insertion sort, which agrees with Python's stable sort). -/
def pySorted {α : Type} (le : α → α → Bool) (l : List α) : List α :=
  l.foldl (fun acc x => pyInsertR le x acc) []

/-- The closed `type` enum of `MustTarget` (`types.py`,
`Literal["vocab", "grammar", "collocation", "repair", "new_word"]`). -/
inductive TargetType where
  | vocab
  | grammar
  | collocation
  | repair
  | new_word
deriving DecidableEq, Repr

/-- `types.py` `MustTarget`. `priority` is a Python float used only as data
here, modelled by `ℚ`. -/
structure MustTarget where
  id : String
  type : TargetType
  surface_forms : List String
  priority : ℚ
  scaffolding_required : Bool := false
  exposure_stage : Option Int := none
  gloss : Option String := none
deriving DecidableEq, Repr

/-- `types.py` `GrammarPattern`. -/
structure GrammarPattern where
  id : String
  pattern : String
deriving DecidableEq, Repr

/-- `types.py` `ForbiddenConstraints`. -/
structure ForbiddenConstraints where
  introduce_new_vocab : Bool := true
  sentence_length_max : Int := 20
deriving DecidableEq, Repr

/-- `LanguageConstraints`. The dataclass in `types.py` declares `must_target`,
`allowed_support`, `allowed_grammar` and `forbidden`; the constructor call in
`planner.py` (`plan_turn`) and the readers in `gateway.py`, `contract.py`,
`local_provider.py` and `plan_reply.py` additionally use `allowed_stretch`,
`reinforced_words` and `require_new_vocab`, so the record carries the union of
those fields (the extra ones defaulting to empty/false as a dataclass would). -/
structure LanguageConstraints where
  must_target : List MustTarget := []
  allowed_support : List String := []
  allowed_stretch : List String := []
  reinforced_words : List String := []
  require_new_vocab : Bool := false
  allowed_grammar : List GrammarPattern := []
  forbidden : ForbiddenConstraints := {}
deriving DecidableEq, Repr

/-- `types.py` `GenerationInstructions` (fields relevant to the gateway). -/
structure GenerationInstructions where
  conversation_goal : String := "Continue the conversation naturally and keep it going."
  tone : String := "friendly"
  register : String := "해요체"
  provide_micro_feedback : Bool := true
  provide_suggested_english_intent : Bool := true
  max_corrections : Int := 1
  safe_mode : Bool := true
deriving DecidableEq, Repr

/-- `ConversationState` as constructed by `planner.py` (which also fills
`last_suggested_user_reply_ko`, read back by the gateway's fallback). -/
structure ConversationState where
  summary : String
  last_assistant_turn_ko : String := ""
  last_user_turn_ko : String := ""
  last_suggested_user_reply_ko : String := ""
deriving DecidableEq, Repr

/-- `types.py` `UserInput` (`confidence` kept as an optional string). -/
structure UserInput where
  text_ko : String
  confidence : Option String := none
deriving DecidableEq, Repr

/-- `types.py` `ConversationRequest` (without `to_prompt_text`, which is
plumbing to the provider). -/
structure ConversationRequest where
  system_role : String
  conversation_state : ConversationState
  user_input : UserInput
  language_constraints : LanguageConstraints
  generation_instructions : GenerationInstructions
deriving DecidableEq, Repr

/-- The particle suffix table `_JOSA_SUFFIXES` of `validation.py`. -/
def JOSA_SUFFIXES : List String :=
  ["이", "가", "은", "는", "을", "를", "에", "에서", "로", "으로", "와", "과",
   "랑", "하고", "도", "만"]

/-- `_BASE_ALLOWED_SUPPORT` of `validation.py` (`planner.py` carries an
identical copy named `BASE_ALLOWED_SUPPORT`). -/
def BASE_ALLOWED_SUPPORT : List String :=
  ["이", "가", "은", "는", "을", "를", "에", "에서", "로", "으로", "와", "과",
   "랑", "하고", "도", "만", "그리고", "그래서", "근데", "그런데", "네", "응",
   "아니요", "맞아요", "아니에요", "있어요", "없어요", "있어", "없어", "뭐",
   "뭐가", "뭐예요", "어디", "어디예요", "여기", "거기", "저기", "지금", "오늘",
   "내일", "좋아요", "싫어요", "안", "못", "좀", "더", "해주세요", "주세요",
   "해요", "해", "했어요", "할까요", "싶어요", "돼", "되요", "돼요", "맞아"]

/-- The character class of `_WORD_RE = re.compile(r"[\\w가-힣]+")` in
`validation.py`. Inside the raw string the `\\` is an escaped backslash, so
the class matches a literal backslash, the letter `w`, and the Hangul
syllables U+AC00 to U+D7A3 — not `\w`. -/
def isWordChar (c : Char) : Bool :=
  c = '\\' ∨ c = 'w' ∨ (0xAC00 ≤ c.toNat ∧ c.toNat ≤ 0xD7A3)

/-- Helper for the regex `findall`: the accumulator holds the current run
reversed; emits maximal runs of `isWordChar` characters. -/
def tokenizeAux : List Char → List Char → List String
  | [], acc => if acc.isEmpty then [] else [⟨acc.reverse⟩]
  | c :: rest, acc =>
    if isWordChar c then tokenizeAux rest (c :: acc)
    else if acc.isEmpty then tokenizeAux rest []
    else ⟨acc.reverse⟩ :: tokenizeAux rest []

/-- `validation.py` `tokenize_for_validation`: `_WORD_RE.findall(text)`. -/
def tokenize_for_validation (text : String) : List String :=
  tokenizeAux text.data []

/-- The default `always_allowed` interjections of `validate_tokens`. -/
def ALWAYS_ALLOWED : List String :=
  ["아", "응", "네", "그래", "그럼", "음", "아니", "그리고", "그래서"]

/-- The `allowed` set built at the top of `validate_tokens`: `allowed_support`
∪ all `must_target` surface forms ∪ `always_allowed` ∪ `_BASE_ALLOWED_SUPPORT`
(a Python `set`; modelled as a list, membership is what matters). -/
def allowedSet (c : LanguageConstraints) (always : List String) : List String :=
  c.allowed_support ++ (c.must_target.flatMap (·.surface_forms)) ++ always
    ++ BASE_ALLOWED_SUPPORT

/-- `validation.py` `_token_is_allowed`. -/
def token_is_allowed (token : String) (allowed : List String) : Bool :=
  token ∈ allowed ∨
    JOSA_SUFFIXES.any (fun sfx =>
      pyEndsWith token sfx ∧ sfx.data.length < token.data.length ∧
        (⟨token.data.take (token.data.length - sfx.data.length)⟩ : String) ∈ allowed ∧
        sfx ∈ allowed)

/-- `validation.py` `validate_tokens`, returning the `unexpected_tokens`
tuple of the `TokenValidation` result. -/
def validate_tokens (assistant_reply_ko follow_up_question_ko : String)
    (c : LanguageConstraints) (always : List String := ALWAYS_ALLOWED) :
    List String :=
  let allowed := allowedSet c always
  let tokens := tokenize_for_validation assistant_reply_ko
    ++ tokenize_for_validation follow_up_question_ko
  pyDedup (tokens.filter (fun t => ¬ pyIsDigit t ∧ ¬ token_is_allowed t allowed))

end Anki

namespace Anki.TJ

/-! The JSON (de)serialisation of `ConversationResponse` exactly as declared
in `types.py` (whose dataclass has no `suggested_user_reply_*` fields). -/

/-- A parsed JSON value (`orjson` output: objects keep insertion order). -/
inductive Json where
  | null
  | bool (b : Bool)
  | num (n : Int)
  | str (s : String)
  | arr (l : List Json)
  | obj (l : List (String × Json))

/-- `micro_feedback.type`: `Literal["none", "correction", "praise"]`. -/
inductive MicroFeedbackType where
  | none
  | correction
  | praise
deriving DecidableEq, Repr

/-- Serialisation of the feedback type literal. -/
def MicroFeedbackType.toStr : MicroFeedbackType → String
  | .none => "none"
  | .correction => "correction"
  | .praise => "praise"

/-- `types.py` `MicroFeedbackDict`. -/
structure MicroFeedbackDict where
  type : MicroFeedbackType
  content_ko : String
  content_en : String
deriving DecidableEq, Repr

/-- `types.py` `ConversationResponse` (the dataclass fields). -/
structure ConversationResponse where
  assistant_reply_ko : String
  micro_feedback : Option MicroFeedbackDict := Option.none
  suggested_user_intent_en : Option String := Option.none
  targets_used : List String := []
  unexpected_tokens : List String := []
  word_glosses : List (String × String) := []
deriving DecidableEq, Repr

/-- `data.get(key)`: absent keys and JSON `null` both read as Python `None`. -/
def jget (fields : List (String × Json)) (key : String) : Json :=
  (lookupA fields key).getD .null

/-- Build a Python dict from key/value pairs (`{word: gloss for ...}`): a
repeated key keeps its first position but takes the last value. -/
def pyDictPairs (l : List (String × String)) : List (String × String) :=
  l.foldl (fun d p => pyInsert d p.1 p.2) []

/-- `types.py` `ConversationResponse.to_json_dict`. -/
def to_json_dict (r : ConversationResponse) : Json :=
  .obj
    [("assistant_reply_ko", .str r.assistant_reply_ko),
     ("micro_feedback",
       match r.micro_feedback with
       | Option.none => .null
       | some fb =>
         .obj [("type", .str fb.type.toStr), ("content_ko", .str fb.content_ko),
               ("content_en", .str fb.content_en)]),
     ("suggested_user_intent_en",
       match r.suggested_user_intent_en with
       | Option.none => .null
       | some s => .str s),
     ("targets_used", .arr (r.targets_used.map .str)),
     ("unexpected_tokens", .arr (r.unexpected_tokens.map .str)),
     ("word_glosses",
       .obj ((pyDictPairs r.word_glosses).map (fun p => (p.1, Json.str p.2))))]

/-- `_required_str` of `types.py`. -/
def requiredStr (fields : List (String × Json)) (key : String) :
    Except String String :=
  match jget fields key with
  | .str s => if s = "" then .error (key ++ " must be a non-empty string") else .ok s
  | _ => .error (key ++ " must be a non-empty string")

/-- The `micro_feedback` branch of `from_json_dict`. -/
def parseMicroFeedback (fields : List (String × Json)) :
    Except String (Option MicroFeedbackDict) :=
  match jget fields "micro_feedback" with
  | .null => .ok Option.none
  | .obj mf =>
    let tyE : Except String MicroFeedbackType :=
      match jget mf "type" with
      | .str "none" => .ok .none
      | .str "correction" => .ok .correction
      | .str "praise" => .ok .praise
      | _ => .error "micro_feedback.type must be one of: none, correction, praise"
    match tyE with
    | .error e => .error e
    | .ok ty =>
      let koE : Except String String :=
        match lookupA mf "content_ko" with
        | Option.none => .ok ""
        | some (.str s) => .ok s
        | some _ => .error "micro_feedback.content_ko/content_en must be strings"
      match koE with
      | .error e => .error e
      | .ok ko =>
        match lookupA mf "content_en" with
        | Option.none => .ok (some ⟨ty, ko, ""⟩)
        | some (.str s) => .ok (some ⟨ty, ko, s⟩)
        | some _ => .error "micro_feedback.content_ko/content_en must be strings"
  | _ => .error "micro_feedback must be an object or null"

/-- `isinstance(x, str)` on a JSON value. -/
def isStr : Json → Bool
  | .str _ => true
  | _ => false

/-- Extract a JSON string value. -/
def asStr : Json → Option String
  | .str s => some s
  | _ => Option.none

/-- One `word_glosses` entry from a JSON object item. -/
def glossEntry (p : String × Json) : Option (String × String) :=
  match p.2 with
  | .str s => some (p.1, s)
  | _ => Option.none

/-- One `word_glosses` entry from a JSON list item (a `[token, gloss]`
pair of strings). -/
def glossItem : Json → Option (String × String)
  | .arr [.str w, .str g] => some (w, g)
  | _ => Option.none

/-- `data.get(key, [])` parsed as a list of strings, per `from_json_dict`. -/
def parseStrList (fields : List (String × Json)) (key : String) :
    Except String (List String) :=
  match lookupA fields key with
  | Option.none => .ok []
  | some (.arr l) =>
    if l.all isStr then .ok (l.filterMap asStr)
    else .error (key ++ " must be a list of strings")
  | some _ => .error (key ++ " must be a list of strings")

/-- The `word_glosses` branch of `from_json_dict`: a dict keeps the string
values; a list keeps the well-formed 2-element string pairs; anything else
yields the empty mapping. -/
def parseWordGlosses (fields : List (String × Json)) : List (String × String) :=
  match lookupA fields "word_glosses" with
  | some (.obj l) => l.filterMap glossEntry
  | some (.arr l) => l.filterMap glossItem
  | _ => []

/-- `types.py` `ConversationResponse.from_json_dict`. -/
def from_json_dict (j : Json) : Except String ConversationResponse :=
  match j with
  | .obj fields =>
    match requiredStr fields "assistant_reply_ko" with
    | .error e => .error e
    | .ok reply =>
      match parseMicroFeedback fields with
      | .error e => .error e
      | .ok mf =>
        let siE : Except String (Option String) :=
          match jget fields "suggested_user_intent_en" with
          | .null => .ok Option.none
          | .str s => .ok (some s)
          | _ => .error "suggested_user_intent_en must be a string or null"
        match siE with
        | .error e => .error e
        | .ok si =>
          match parseStrList fields "targets_used" with
          | .error e => .error e
          | .ok tu =>
            match parseStrList fields "unexpected_tokens" with
            | .error e => .error e
            | .ok ut =>
              .ok ⟨reply, mf, si, tu, ut, parseWordGlosses fields⟩
  | _ => .error "response must be a JSON object"

end Anki.TJ

namespace Anki

/-- `bands.py` `FSRS5_DEFAULT_DECAY`. -/
noncomputable def FSRS5_DEFAULT_DECAY : ℝ := 0.5

/-- `bands.py` `compute_retrievability`: the FSRS forgetting curve, with the
float arithmetic modelled over `ℝ` (`**` is the real power). -/
noncomputable def compute_retrievability (stability elapsed_days decay : ℝ) : ℝ :=
  if stability ≤ 0 ∨ decay ≤ 0 then 0
  else
    let factor : ℝ := (0.9 : ℝ) ^ (1 / -decay) - 1
    let r : ℝ := ((elapsed_days / stability) * factor + 1) ^ (-decay)
    if r < 0 then 0 else if r > 1 then 1 else r

/-- `bands.py` `RetrievabilityBand` (NEW is virtual, never derived from R). -/
inductive Band where
  | cold
  | fragile
  | stretch
  | support
  | new
deriving DecidableEq, Repr

/-- `collocations.py` `Collocation`. -/
structure Collocation where
  id : String
  tokens : List String
  triggers : List String
deriving DecidableEq, Repr

/-- `collocations.py` `DEFAULT_KO_COLLOCATIONS`. -/
def DEFAULT_KO_COLLOCATIONS : List Collocation :=
  [⟨"colloc:사이에_있어요", ["사이에", "있어요"], ["사이"]⟩,
   ⟨"colloc:~해도_돼요", ["해도", "돼요"], ["돼요"]⟩,
   ⟨"colloc:~하면_안_돼요", ["안", "돼요"], ["안", "돼요"]⟩,
   ⟨"colloc:~하고_싶어요", ["하고", "싶어요"], ["싶어요"]⟩]

/-- Loop of `select_collocation_targets` (break once `max_targets` reached). -/
def selectCollocAux (lexical_targets : List String) (max_targets : Int) :
    List Collocation → List MustTarget → List MustTarget
  | [], sel => sel
  | c :: rest, sel =>
    if c.triggers.any (fun t => t ∈ lexical_targets) then
      let sel2 := sel ++ [⟨c.id, .collocation, c.tokens, 9/10, false, none, none⟩]
      if (sel2.length : Int) ≥ max_targets then sel2
      else selectCollocAux lexical_targets max_targets rest sel2
    else selectCollocAux lexical_targets max_targets rest sel

/-- `collocations.py` `select_collocation_targets`. -/
def select_collocation_targets (lexical_targets : List String)
    (max_targets : Int := 1) : List MustTarget :=
  selectCollocAux lexical_targets max_targets DEFAULT_KO_COLLOCATIONS []

/-- `grammar.py` `GrammarItem`. -/
structure GrammarItem where
  id : String
  pattern : String
  triggers : List String
deriving DecidableEq, Repr

/-- `grammar.py` `DEFAULT_KO_GRAMMAR`. -/
def DEFAULT_KO_GRAMMAR : List GrammarItem :=
  [⟨"gram:n1_n2_사이에_있다", "N1와 N2 사이에 N3이/가 있어요", ["사이"]⟩,
   ⟨"gram:~해도_돼요", "~해도 돼요", ["돼요"]⟩,
   ⟨"gram:n1에_있어요", "N1에 N2이/가 있어요", ["있어요"]⟩,
   ⟨"gram:n1에_없어요", "N1에 N2이/가 없어요", ["없어요"]⟩,
   ⟨"gram:n은_어디에_있어요", "N은/는 어디에 있어요?", ["어디"]⟩,
   ⟨"gram:~하면_안_돼요", "~하면 안 돼요", ["안", "돼요"]⟩,
   ⟨"gram:~할까요", "~할까요?", ["할까요"]⟩,
   ⟨"gram:~하고_싶어요", "~하고 싶어요", ["싶어요"]⟩]

/-- Loop of `select_grammar_patterns`. -/
def selectGrammarAux (must_targets : List String) (max_patterns : Int) :
    List GrammarItem → List GrammarPattern → List GrammarPattern
  | [], sel => sel
  | g :: rest, sel =>
    if g.triggers.any (fun t => t ∈ must_targets) then
      let sel2 := sel ++ [⟨g.id, g.pattern⟩]
      if (sel2.length : Int) ≥ max_patterns then sel2
      else selectGrammarAux must_targets max_patterns rest sel2
    else selectGrammarAux must_targets max_patterns rest sel

/-- `grammar.py` `select_grammar_patterns`. -/
def select_grammar_patterns (must_targets : List String)
    (max_patterns : Int := 2) : List GrammarPattern :=
  selectGrammarAux must_targets max_patterns DEFAULT_KO_GRAMMAR []

/-- `planner.py` `NewWordState`. -/
structure NewWordState where
  lexeme : String
  gloss : String
  introduced_turn : Int
  current_stage : Int
  exposure_count : Int := 0
  last_seen_turn : Option Int := none
deriving DecidableEq, Repr

/-- `planner.py` `PlannerState` (`last_debug_vocab`, a UI-only debug mapping
rebuilt from the float banding every turn, is not modelled). -/
structure PlannerState where
  conversation_summary : String
  last_assistant_turn_ko : String := ""
  last_user_turn_ko : String := ""
  last_suggested_user_reply_ko : String := ""
  turn_index : Int := 0
  turns_since_new_word : Int := 0
  scheduled_reuse : List (String × Int) := []
  last_must_target_ids : List String := []
  new_word_states : List (String × NewWordState) := []
deriving DecidableEq, Repr

/-- The `ConversationSettings` fields that drive target selection. -/
structure PlannerSettings where
  allow_new_words : Bool := false
  max_new_words_per_session : Int := 5
  force_new_word_every_n_turns : Int := 3
deriving DecidableEq, Repr

/-- A snapshot item as the selection loops see it. -/
structure BandedItem where
  item_id : String
  lexeme : String
deriving DecidableEq, Repr

/-- Accumulator of the `must_target` selection loops of `plan_turn`
(`must_targets`, `used_lexemes`, `fragile_count`). -/
structure SelAcc where
  targets : List MustTarget := []
  used : List String := []
  fragile_count : Int := 0

/-- Step 1 of `plan_turn`: due items from `scheduled_reuse` (break after the
append that reaches the budget). -/
def dueLoop (bandById : List (String × Band)) (budget : Int) :
    List String → SelAcc → SelAcc
  | [], acc => acc
  | item_id :: rest, acc =>
    if lookupA bandById item_id = some .cold then dueLoop bandById budget rest acc
    else
      let lexeme := pyRemoveOnePre item_id "lexeme:"
      if lexeme ∈ acc.used then dueLoop bandById budget rest acc
      else
        let scaff := lookupA bandById item_id = some Band.fragile
          ∨ lookupA bandById item_id = some Band.new
        let acc2 : SelAcc :=
          { targets := acc.targets ++ [⟨item_id, .vocab, [lexeme], 1, scaff, none, none⟩],
            used := acc.used ++ [lexeme],
            fragile_count := acc.fragile_count +
              (if lookupA bandById item_id = some Band.fragile then 1 else 0) }
        if (acc2.targets.length : Int) ≥ budget then acc2
        else dueLoop bandById budget rest acc2

/-- Step 2 of `plan_turn`: STRETCH lexemes in candidate order. -/
def stretchLoop (budget : Int) : List String → SelAcc → SelAcc
  | [], acc => acc
  | lex :: rest, acc =>
    if (acc.targets.length : Int) ≥ budget then acc
    else if lex ∈ acc.used then stretchLoop budget rest acc
    else
      stretchLoop budget rest
        { targets := acc.targets ++ [⟨"lexeme:" ++ lex, .vocab, [lex], 1, false, none, none⟩],
          used := acc.used ++ [lex],
          fragile_count := acc.fragile_count }

/-- Inner loop of step 3 of `plan_turn` (appends at most one FRAGILE lexeme,
then breaks). -/
def fragileLoop (budget : Int) : List String → SelAcc → SelAcc
  | [], acc => acc
  | lex :: rest, acc =>
    if (acc.targets.length : Int) ≥ budget then acc
    else if lex ∈ acc.used then fragileLoop budget rest acc
    else
      { targets := acc.targets ++ [⟨"lexeme:" ++ lex, .vocab, [lex], 1, true, none, none⟩],
        used := acc.used ++ [lex],
        fragile_count := acc.fragile_count + 1 }

/-- Step 4 of `plan_turn`: a single SUPPORT fallback target. -/
def supportFallback : List String → SelAcc → SelAcc
  | [], acc => acc
  | lex :: rest, acc =>
    if lex ∈ acc.used then supportFallback rest acc
    else
      { targets := acc.targets ++ [⟨"lexeme:" ++ lex, .vocab, [lex], 1, false, none, none⟩],
        used := acc.used ++ [lex],
        fragile_count := acc.fragile_count }

/-- Step 5 of `plan_turn`: append the active new-word reinforcement target
(a hard constraint, not counted against the budget). -/
def newWordAppend (anw : Option NewWordState) (acc : SelAcc) : SelAcc :=
  match anw with
  | some nw =>
    if nw.lexeme ∈ acc.used then acc
    else
      { targets := acc.targets ++
          [⟨"lexeme:" ++ nw.lexeme, .new_word, [nw.lexeme], 9/10, true,
            some nw.current_stage, some nw.gloss⟩],
        used := acc.used ++ [nw.lexeme],
        fragile_count := acc.fragile_count }
  | none => acc

/-- Step 6 of `plan_turn`: append collocation targets while below
`must_target_count`. -/
def collocAppend (count : Int) : List MustTarget → List MustTarget → List MustTarget
  | [], ts => ts
  | c :: rest, ts =>
    if (ts.length : Int) ≥ count then ts else collocAppend count rest (ts ++ [c])

/-- Sort key order of `active_new_words`:
`(current_stage, introduced_turn, lexeme)` ascending. -/
def nwLe (a b : NewWordState) : Bool :=
  a.current_stage < b.current_stage ∨
    (a.current_stage = b.current_stage ∧
      (a.introduced_turn < b.introduced_turn ∨
        (a.introduced_turn = b.introduced_turn ∧ a.lexeme ≤ b.lexeme)))

/-- `planner.py` `ConversationPlanner.plan_turn`.

In the source, every call of `plan_turn` raises `TypeError` before
returning: the constructor calls at planner.py lines 388–403 and 413–418
pass `allowed_stretch`, `reinforced_words`, `require_new_vocab` and
`last_suggested_user_reply_ko` to the `types.py` dataclasses
`LanguageConstraints` and `ConversationState`, which declare none of those
fields — the stale-dataclass bug recorded with claim C2. This definition
therefore models the selection logic with the intended field set (the one
the spec declares and that `gateway.py`, `contract.py`, `local_provider.py`
and `plan_reply.py` all assume), so that what the claim asserts about the
selection can be stated at all; it does not model the unconditional crash.

The floating-point banding of snapshot items (lines 141–211: retrievability,
`classify_item`, and the sort by `_candidate_score`) is abstracted into two
parameters: `candidates` is the score-sorted, COLD-filtered candidate list
and `bandById` the band classification; every concrete run of `plan_turn`
corresponds to some value of these. Everything from the band lists onwards
is translated line by line. -/
def plan_turn (settings : PlannerSettings) (candidates : List BandedItem)
    (bandById : List (String × Band)) (state : PlannerState)
    (user_input : UserInput) (must_target_count : Int := 3)
    (allowed_support_count : Int := 60) (reuse_delay_turns : Int := 3) :
    (ConversationState × LanguageConstraints × GenerationInstructions) ×
      PlannerState :=
  let turn_index := state.turn_index + 1
  let bandD := fun id => (lookupA bandById id).getD Band.stretch
  let stretch_lexemes :=
    (candidates.filter (fun i => bandD i.item_id = .stretch)).map (·.lexeme)
  let support_lexemes :=
    (candidates.filter (fun i => bandD i.item_id = .support)).map (·.lexeme)
  let fragile_lexemes :=
    (candidates.filter (fun i => bandD i.item_id = .fragile)).map (·.lexeme)
  let due_ids :=
    pySorted (fun a b => a ≤ b)
      ((state.scheduled_reuse.filter (fun p => p.2 ≤ turn_index)).map (·.1))
  let active_new_words :=
    if settings.allow_new_words then
      pySorted nwLe
        ((state.new_word_states.map (·.2)).filter
          (fun nw => 1 ≤ nw.current_stage ∧ nw.current_stage ≤ 3))
    else []
  let active_new_word := active_new_words.head?
  let new_word_budget_remaining :=
    settings.max_new_words_per_session - (state.new_word_states.length : Int)
  let allow_new_vocab := settings.allow_new_words ∧ active_new_word = none ∧
    new_word_budget_remaining > 0
  let cadence := max 1 settings.force_new_word_every_n_turns
  let require_new_vocab :=
    allow_new_vocab ∧ state.turns_since_new_word ≥ cadence - 1
  let target_budget := max 1 must_target_count
  let acc1 := dueLoop bandById target_budget due_ids {}
  let acc2 := stretchLoop target_budget stretch_lexemes acc1
  let acc3 :=
    if (acc2.targets.length : Int) < target_budget ∧ acc2.fragile_count < 1 ∧
        ¬ fragile_lexemes.isEmpty then
      fragileLoop target_budget fragile_lexemes acc2
    else acc2
  let acc4 := if acc3.targets.isEmpty then supportFallback support_lexemes acc3 else acc3
  let acc5 : SelAcc := newWordAppend active_new_word acc4
  let lexical_targets :=
    (acc5.targets.filter (fun t => t.type = .vocab)).map
      (fun t => t.surface_forms.headD "")
  let must_targets :=
    collocAppend must_target_count (select_collocation_targets lexical_targets 1)
      acc5.targets
  let reinforced_words :=
    pySorted (fun a b => a ≤ b)
      (pyDedup (((state.new_word_states.map (·.2)).filter
        (fun nw => nw.current_stage ≥ 4)).map (·.lexeme)))
  let target_lexemes := must_targets.flatMap (·.surface_forms)
  let stretch_for_ai :=
    pyTake 20 (stretch_lexemes.filter (fun l => l ∉ target_lexemes))
  let support_for_ai :=
    pyTake allowed_support_count
      (support_lexemes.filter (fun l => l ∉ target_lexemes))
  let constraints : LanguageConstraints :=
    { must_target := must_targets,
      allowed_stretch := stretch_for_ai,
      allowed_support := support_for_ai,
      reinforced_words := reinforced_words,
      require_new_vocab := require_new_vocab,
      allowed_grammar :=
        select_grammar_patterns (must_targets.flatMap (·.surface_forms)) 2,
      forbidden := ⟨¬ allow_new_vocab, 20⟩ }
  let instructions : GenerationInstructions :=
    { register := "해요체", safe_mode := true, provide_micro_feedback := true,
      provide_suggested_english_intent := true, max_corrections := 1 }
  let conv_state : ConversationState :=
    { summary := state.conversation_summary,
      last_assistant_turn_ko := state.last_assistant_turn_ko,
      last_user_turn_ko := user_input.text_ko,
      last_suggested_user_reply_ko := state.last_suggested_user_reply_ko }
  let state2 :=
    { state with
        turn_index := turn_index,
        last_user_turn_ko := user_input.text_ko,
        last_must_target_ids := must_targets.map (·.id),
        scheduled_reuse :=
          must_targets.foldl
            (fun s t =>
              if t.type = .new_word then s
              else pyInsert s t.id (turn_index + reuse_delay_turns))
            state.scheduled_reuse }
  ((conv_state, constraints, instructions), state2)

/-- `observe_turn`'s per-target `used` test: a collocation needs all surface
forms among the user or assistant tokens, any other target needs one. -/
def targetSatisfied (uT aT : List String) (t : MustTarget) : Bool :=
  if t.type = .collocation then
    t.surface_forms.all (fun sf => sf ∈ uT ∨ sf ∈ aT)
  else
    t.surface_forms.any (fun sf => sf ∈ uT ∨ sf ∈ aT)

/-- The missed-target loop of `observe_turn`: reschedules each missed
non-new-word target to `min(existing, turn_index + 1)` and collects its id. -/
def observeTargets (turnIdx : Int) (uT aT : List String) :
    List MustTarget → List (String × Int) → List (String × Int) × List String
  | [], sched => (sched, [])
  | t :: rest, sched =>
    if targetSatisfied uT aT t then observeTargets turnIdx uT aT rest sched
    else
      let sched2 :=
        if t.type ≠ .new_word then
          pyInsert sched t.id
            (min ((lookupA sched t.id).getD (turnIdx + 1)) (turnIdx + 1))
        else sched
      let r := observeTargets turnIdx uT aT rest sched2
      (r.1, t.id :: r.2)

/-- The new-word pipeline advancement of `observe_turn` for one entry of
`new_word_states` (keyed by lexeme). -/
def advanceNewWordPair (turnIdx : Int) (aT : List String)
    (p : String × NewWordState) : NewWordState :=
  let nw := p.2
  if nw.current_stage ≥ 4 then nw
  else if p.1 ∈ aT then
    let ec :=
      if nw.last_seen_turn = none ∨ nw.last_seen_turn = some (turnIdx - 1) then
        if nw.introduced_turn ≠ turnIdx then nw.exposure_count + 1
        else nw.exposure_count
      else 1
    { nw with
        exposure_count := ec,
        last_seen_turn := some turnIdx,
        current_stage := if ec ≥ 3 then 4 else if ec = 2 then 2 else 1 }
  else nw

/-- `planner.py` `ConversationPlanner.observe_turn` (explicit state passing:
returns the updated state and the missed target ids). -/
def observe_turn (state : PlannerState) (c : LanguageConstraints)
    (user_input : UserInput) (assistant_reply_ko : String) :
    PlannerState × List String :=
  let uT := tokenize_for_validation user_input.text_ko
  let aT := tokenize_for_validation assistant_reply_ko
  let r := observeTargets state.turn_index uT aT c.must_target state.scheduled_reuse
  let used := state.new_word_states.any
    (fun p => ¬ (p.2.current_stage ≥ 4) ∧ p.1 ∈ aT)
  ({ state with
      scheduled_reuse := r.1,
      new_word_states :=
        state.new_word_states.map (fun p => (p.1, advanceNewWordPair state.turn_index aT p)),
      turns_since_new_word := if used then 0 else state.turns_since_new_word + 1 },
   r.2)

end Anki

namespace Anki.GW

/-! The gateway rewrite loop of `gateway.py`. The `ConversationResponse`
values the gateway constructs carry `suggested_user_reply_ko`/`_en` in
addition to the `types.py` dataclass fields, so the gateway's response record
is embedded separately here. -/

/-- `ConversationResponse` as read and constructed throughout `gateway.py`.
The response `run_turn` actually receives is produced by the `types.py`
parser `from_json_dict` (gateway.py line 61), whose dataclass has no
`suggested_user_reply_ko`/`_en` fields, so the source's reads and
reconstructions of those fields (e.g. gateway.py lines 77–78, 91–92, 107)
raise `AttributeError`/`TypeError` — part of the stale-dataclass bug
recorded with claim C3. Here they are optional fields defaulting to `none`,
the intended union the gateway's code assumes. -/
structure ConversationResponse where
  assistant_reply_ko : String
  micro_feedback : Option TJ.MicroFeedbackDict := none
  suggested_user_intent_en : Option String := none
  suggested_user_reply_ko : Option String := none
  suggested_user_reply_en : Option String := none
  targets_used : List String := []
  unexpected_tokens : List String := []
  word_glosses : List (String × String) := []
deriving DecidableEq, Repr

/-- `gateway.py` `_has_surface_form`: exact token or token with one known
particle suffix stripped. -/
def hasSurfaceForm (tokens : List String) (surface_form : String) : Bool :=
  tokens.any (fun token =>
    token = surface_form ∨
      JOSA_SUFFIXES.any (fun sfx =>
        pyEndsWith token sfx ∧ sfx.data.length < token.data.length ∧
          (⟨token.data.take (token.data.length - sfx.data.length)⟩ : String)
            = surface_form))

/-- `gateway.py` `_targets_used_in_text`. -/
def targetsUsedInText (text : String) (must_targets : List MustTarget) :
    List String :=
  let tokens := tokenize_for_validation text
  (must_targets.filter (fun t =>
    ¬ t.surface_forms.isEmpty ∧
      (if t.type = .collocation then
        t.surface_forms.all (hasSurfaceForm tokens)
      else
        t.surface_forms.any (hasSurfaceForm tokens)))).map (·.id)

/-- The `norm` helper of `_fallback_non_repeating_suggested_reply`. -/
def fallbackNorm (s : String) : String :=
  joinSpace (pySplitWs (pyRstrip (pyStrip s)
    ['.', '!', '?', '。', '！', '？']).data)

/-- The candidate list of `_fallback_non_repeating_suggested_reply`. -/
def FALLBACK_CANDIDATES : List (String × String) :=
  [("네.", "Yes."), ("아니요.", "No."), ("맞아요.", "That's right."),
   ("아니에요.", "That's not right.")]

/-- `gateway.py` `_fallback_non_repeating_suggested_reply`. -/
def fallbackNonRepeating (prev current : String) : String × String :=
  let prev_n := fallbackNorm prev
  let cur_n := fallbackNorm current
  match FALLBACK_CANDIDATES.find? (fun p =>
      fallbackNorm p.1 ≠ "" ∧ fallbackNorm p.1 ≠ prev_n ∧ fallbackNorm p.1 ≠ cur_n) with
  | some p => p
  | none =>
    let ko := if pyStrip current = "" then "네." else pyStrip current
    (ko, if fallbackNorm ko = fallbackNorm "네." then "Yes." else "Okay.")

/-- `gateway.py` `_with_rewrite_directive`'s marker constant. -/
def REWRITE_MARKER : String := "\n\nRewrite required:"

/-- First index at which `m` occurs as a contiguous sublist of `s`. -/
def firstOcc (m : List Char) : List Char → Option Nat
  | [] => if m.isPrefixOf ([] : List Char) then some 0 else none
  | c :: t => if m.isPrefixOf (c :: t) then some 0 else (firstOcc m t).map (· + 1)

/-- `system_role.split(marker, 1)[0]`: everything before the first marker
occurrence (the whole string when the marker is absent). -/
def stripList (m l : List Char) : List Char :=
  match firstOcc m l with
  | none => l
  | some i => l.take i

/-- `gateway.py` `_with_rewrite_directive`. -/
def withRewriteDirective (system_role reason directive : String) : String :=
  (⟨stripList REWRITE_MARKER.data system_role.data⟩ : String) ++ REWRITE_MARKER
    ++ " your previous output violated the contract (" ++ reason ++ "). "
    ++ directive

/-- `gateway.py` `_rewrite_request`. -/
def rewriteRequest (request : ConversationRequest) (reason : String) :
    ConversationRequest :=
  let allow_new_vocab := ¬ request.language_constraints.forbidden.introduce_new_vocab
  let require_new_vocab := request.language_constraints.require_new_vocab
  let vocab_directive :=
    if require_new_vocab then
      "Introduce exactly ONE new content word (with glosses), and no other new words."
    else if allow_new_vocab then
      "You may introduce at most ONE new content word (with glosses)."
    else "Do not introduce any new content words."
  { request with
      system_role :=
        withRewriteDirective request.system_role reason
          ("Return ONLY a valid JSON object matching the schema. " ++ vocab_directive) }

/-- Outcome of one attempt of the `run_turn` loop on a parsed response. -/
inductive TurnAction where
  | rewrite (reason : String)
  | accept (r : ConversationResponse)
  | raiseErr (msg : String)
deriving DecidableEq, Repr

/-- Python truthiness of `word_glosses.get(token)` in the gateway:
false for a missing key and for the empty string. -/
def glossTruthy (glosses : List (String × String)) (token : String) : Bool :=
  match lookupA (TJ.pyDictPairs glosses) token with
  | some g => g ≠ ""
  | none => false

/-- The contract phase of an attempt (lines 227–256 of `gateway.py`), with
`check_response_against_request` passed in as `contractCheck`. -/
def contractPhase (contractCheck : ConversationRequest → ConversationResponse → Option String)
    (request : ConversationRequest) (response : ConversationResponse)
    (attempt maxRewrites : Nat) : TurnAction :=
  match contractCheck request response with
  | some reason =>
    if attempt ≥ maxRewrites then
      if reason = "repeated_suggested_user_reply" then
        let prev := pyStrip request.conversation_state.last_suggested_user_reply_ko
        let alt := fallbackNonRepeating prev (response.suggested_user_reply_ko.getD "")
        .accept { response with
          suggested_user_reply_ko := some alt.1, suggested_user_reply_en := some alt.2 }
      else .raiseErr ("contract violation: " ++ reason)
    else .rewrite ("contract:" ++ reason)
  | none => .accept response

/-- Lines 134–225 of `run_turn`: the unexpected-token policy in safe mode,
after the suggested-reply check passed. -/
def safeModeTail (contractCheck : ConversationRequest → ConversationResponse → Option String)
    (request : ConversationRequest) (response : ConversationResponse)
    (attempt maxRewrites : Nat)
    (assistant_unexpected suggested_unexpected : List String) : TurnAction :=
  let unexpected_unique := pyDedup (assistant_unexpected ++ suggested_unexpected)
  let require_new_vocab := request.language_constraints.require_new_vocab
  let allow_new_vocab := ¬ request.language_constraints.forbidden.introduce_new_vocab
  if unexpected_unique.isEmpty then
    if require_new_vocab then
      if attempt ≥ maxRewrites then contractPhase contractCheck request
        { response with unexpected_tokens := assistant_unexpected } attempt maxRewrites
      else .rewrite "missing_new_word"
    else
      contractPhase contractCheck request
        { response with unexpected_tokens := assistant_unexpected } attempt maxRewrites
  else
    let missing_glosses := unexpected_unique.filter
      (fun t => ¬ glossTruthy response.word_glosses t)
    let too_many_unexpected :=
      (allow_new_vocab ∧ unexpected_unique.length > 1) ∨
        (require_new_vocab ∧ unexpected_unique.length ≠ 1)
    if allow_new_vocab ∧ (too_many_unexpected ∨ ¬ missing_glosses.isEmpty) then
      if attempt ≥ maxRewrites then
        .accept { response with unexpected_tokens := unexpected_unique }
      else
        .rewrite
          (if too_many_unexpected then "unexpected_tokens_limit"
           else if ¬ missing_glosses.isEmpty then "missing_unexpected_glosses"
           else "unexpected_tokens")
    else if ¬ allow_new_vocab then
      if attempt ≥ maxRewrites then
        .accept { response with unexpected_tokens := unexpected_unique }
      else .rewrite ("unexpected_tokens:" ++ joinComma unexpected_unique)
    else
      contractPhase contractCheck request
        { response with unexpected_tokens := assistant_unexpected } attempt maxRewrites

/-- One attempt of `ConversationGateway.run_turn` on a structurally parsed
response (lines 69–256 of `gateway.py`). After recomputing `targets_used`,
safe mode first rewrites on `missing_targets`, then applies the token
policy, then the contract check (`check_response_against_request` of
`contract.py`, a parameter here).

This models the semantics the gateway's lines assume, not the crashes the
source actually hits (recorded with claim C3): gateway.py lines 102 and 108
call `validate_tokens(text, constraints)` with two positional arguments
against `validation.py`'s three positional parameters (`TypeError` whenever
reached — modelled here as single-text validation with an empty follow-up),
the rewrite paths call `_rewrite_request`, which reads
`language_constraints.require_new_vocab` (absent from the `types.py`
dataclass, `AttributeError`), and the final-attempt returns rebuild the
response with `suggested_user_reply_ko`/`_en` fields the `types.py`
response lacks. -/
def runTurnStep (contractCheck : ConversationRequest → ConversationResponse → Option String)
    (request : ConversationRequest) (response0 : ConversationResponse)
    (attempt maxRewrites : Nat) : TurnAction :=
  let computed := targetsUsedInText response0.assistant_reply_ko
    request.language_constraints.must_target
  let response := { response0 with targets_used := computed }
  if request.generation_instructions.safe_mode then
    if ¬ request.language_constraints.must_target.isEmpty ∧ response.targets_used.isEmpty then
      if attempt ≥ maxRewrites then .accept response
      else .rewrite "missing_targets"
    else
      let assistant_unexpected :=
        validate_tokens response.assistant_reply_ko "" request.language_constraints
      match response.suggested_user_reply_ko with
      | some sko =>
        if pyStrip sko ≠ "" then
          let suggested_unexpected :=
            validate_tokens sko "" request.language_constraints
          let extra_suggested :=
            suggested_unexpected.filter (fun t => t ∉ assistant_unexpected)
          if ¬ extra_suggested.isEmpty then
            if attempt ≥ maxRewrites then
              .accept { response with unexpected_tokens := assistant_unexpected }
            else
              .rewrite ("unexpected_tokens_suggested_reply:" ++ joinComma extra_suggested)
          else
            safeModeTail contractCheck request response attempt maxRewrites
              assistant_unexpected suggested_unexpected
        else
          safeModeTail contractCheck request response attempt maxRewrites
            assistant_unexpected []
      | none =>
        safeModeTail contractCheck request response attempt maxRewrites
          assistant_unexpected []
  else contractPhase contractCheck request response attempt maxRewrites

end Anki.GW

namespace Anki

/-- `snapshot.py` `SnapshotItem`, restricted to the fields `wrap.py` reads
(`lexeme`, `gloss`, `stability`); floats as `ℚ`. -/
structure SnapshotItem where
  lexeme : String
  gloss : Option String := none
  stability : Option ℚ := none
deriving DecidableEq, Repr

/-- A suggested-card dict of `compute_session_wrap`. -/
structure SuggestedCardDict where
  front : String
  back : Option String
  tags : List String
deriving DecidableEq, Repr

/-- A value of the dict returned by `compute_session_wrap`. -/
inductive WrapValue where
  | strs (l : List String)
  | cards (l : List SuggestedCardDict)
deriving DecidableEq, Repr

/-- `wrap.py` `weakness_score` (float arithmetic modelled over `ℚ`). -/
def weakness_score (items : List SnapshotItem)
    (mastery : List (String × List (String × Int))) (lexeme : String) : ℚ :=
  let m := (lookupA mastery ("lexeme:" ++ lexeme)).getD []
  let dont_know : ℚ := ((lookupA m "dont_know").getD 0 : Int)
  let practice_again : ℚ := ((lookupA m "practice_again").getD 0 : Int)
  let confusing : ℚ := ((lookupA m "mark_confusing").getD 0 : Int)
  let used_guessing : ℚ := ((lookupA m "used_guessing").getD 0 : Int)
  let lookup_ms_total : ℚ := ((lookupA m "lookup_ms_total").getD 0 : Int)
  let lookup_count : ℚ := ((lookupA m "lookup_count").getD 0 : Int)
  let avg_lookup := if lookup_count > 0 then lookup_ms_total / lookup_count else 0
  let stability := (items.find? (fun i => i.lexeme = lexeme)).bind (·.stability)
  let rustiness : ℚ :=
    match stability with
    | some s => 1 / (1 + max s 0)
    | none => 0
  practice_again * 2 + dont_know * (3/2) + confusing * 1 + used_guessing * 1 +
    min 2 (avg_lookup / 1000) * (1/2) + rustiness * (1/2)

/-- `wrap.py` `score_strength`: the `(user_used, −dont_know, lexeme)` key. -/
def score_strength (mastery : List (String × List (String × Int)))
    (lexeme : String) : Int × Int × String :=
  let m := (lookupA mastery ("lexeme:" ++ lexeme)).getD []
  ((lookupA m "user_used").getD 0, -((lookupA m "dont_know").getD 0), lexeme)

/-- Lexicographic order on the strength key. -/
def strengthKeyLe (a b : Int × Int × String) : Bool :=
  a.1 < b.1 ∨ (a.1 = b.1 ∧ (a.2.1 < b.2.1 ∨ (a.2.1 = b.2.1 ∧ a.2.2 ≤ b.2.2)))

/-- `wrap.py` `compute_session_wrap`. Python's `sorted(key=…, reverse=True)`
is a stable descending sort, embedded as a stable merge sort with the
reversed key comparison. -/
def compute_session_wrap (items : List SnapshotItem)
    (mastery : List (String × List (String × Int)))
    (strengths_n : Int := 3) (reinforce_n : Int := 2) (suggest_n : Int := 1) :
    List (String × WrapValue) :=
  let lexeme_to_gloss :=
    items.foldl (fun d i => pyInsert d i.lexeme i.gloss) []
  let lexemes :=
    pySorted (fun a b => a ≤ b) (pyDedup (items.map (·.lexeme)))
  let strengths :=
    pyTake strengths_n
      (pySorted (fun a b =>
        strengthKeyLe (score_strength mastery b) (score_strength mastery a)) lexemes)
  let reinforce :=
    pyTake reinforce_n
      (pySorted (fun a b =>
        weakness_score items mastery b ≤ weakness_score items mastery a) lexemes)
  let suggested_cards :=
    (pyTake suggest_n reinforce).map (fun lexeme =>
      (⟨lexeme, (lookupA lexeme_to_gloss lexeme).getD none, ["conv_suggested"]⟩ :
        SuggestedCardDict))
  [("strengths", .strs strengths), ("reinforce", .strs reinforce),
   ("suggested_cards", .cards suggested_cards)]

/-- A row written to `elites_conversation_items` by `_upsert_item`
(`updated_ms` wall-clock timestamp not modelled). -/
structure UpsertRow where
  item_id : String
  kind : String
  value : String
  mastery : List (String × Int)
deriving DecidableEq, Repr

/-- The counter update loop of `bump_item_cached`
(`mastery[key] = mastery.get(key, 0) + int(delta)`). -/
def applyDeltas : List (String × Int) → List (String × Int) → List (String × Int)
  | [], m => m
  | (k, d) :: rest, m =>
    applyDeltas rest (pyInsert m k ((lookupA m k).getD 0 + d))

/-- `telemetry.py` `ConversationTelemetryStore.bump_item_cached`: updates the
in-memory cache and returns it together with the list of rows upserted to the
persistent store by `_upsert_item` (exactly one, for `item_id`). -/
def bump_item_cached (cache : List (String × List (String × Int)))
    (item_id kind value : String) (deltas : List (String × Int)) :
    List (String × List (String × Int)) × List UpsertRow :=
  let mastery := (lookupA cache item_id).getD []
  let mastery2 := applyDeltas deltas mastery
  (pyInsert cache item_id mastery2, [⟨item_id, kind, value, mastery2⟩])

/-- The spec's allowed-set membership, following its words: `allowed_support
∪ allowed_stretch ∪ reinforced_words ∪ ⋃ must_target.surface_forms ∪
BASE_ALLOWED_SUPPORT ∪ {always_allowed interjections}`. -/
def specAllowedMember (c : LanguageConstraints) (always : List String)
    (t : String) : Prop :=
  t ∈ c.allowed_support ∨ t ∈ c.allowed_stretch ∨ t ∈ c.reinforced_words ∨
    (∃ mt ∈ c.must_target, t ∈ mt.surface_forms) ∨
    t ∈ BASE_ALLOWED_SUPPORT ∨ t ∈ always

instance (c : LanguageConstraints) (always : List String) (t : String) :
    Decidable (specAllowedMember c always t) := by
  unfold specAllowedMember
  infer_instance

/-- The spec's token-allowance: in the set, or a known particle suffix whose
stem is in the set. -/
def specTokenAllowed (c : LanguageConstraints) (always : List String)
    (t : String) : Prop :=
  specAllowedMember c always t ∨
    ∃ p ∈ JOSA_SUFFIXES, pyEndsWith t p ∧ p.data.length < t.data.length ∧
      specAllowedMember c always ⟨t.data.take (t.data.length - p.data.length)⟩

instance (c : LanguageConstraints) (always : List String) (t : String) :
    Decidable (specTokenAllowed c always t) := by
  unfold specTokenAllowed
  infer_instance

/-- The allowed-set membership the code actually implements (the spec's set
without `allowed_stretch` and `reinforced_words`, which `validate_tokens`
never reads). -/
def codeAllowedMember (c : LanguageConstraints) (always : List String)
    (t : String) : Prop :=
  t ∈ c.allowed_support ∨ (∃ mt ∈ c.must_target, t ∈ mt.surface_forms) ∨
    t ∈ BASE_ALLOWED_SUPPORT ∨ t ∈ always

instance (c : LanguageConstraints) (always : List String) (t : String) :
    Decidable (codeAllowedMember c always t) := by
  unfold codeAllowedMember
  infer_instance

/-- Token-allowance over the corrected set. -/
def codeTokenAllowed (c : LanguageConstraints) (always : List String)
    (t : String) : Prop :=
  codeAllowedMember c always t ∨
    ∃ p ∈ JOSA_SUFFIXES, pyEndsWith t p ∧ p.data.length < t.data.length ∧
      codeAllowedMember c always ⟨t.data.take (t.data.length - p.data.length)⟩

instance (c : LanguageConstraints) (always : List String) (t : String) :
    Decidable (codeTokenAllowed c always t) := by
  unfold codeTokenAllowed
  infer_instance

/-- The concrete planner state of the C5 witness. -/
def c5WitnessState : PlannerState :=
  { conversation_summary := "s", turn_index := 1,
    scheduled_reuse := [("lexeme:책", 5)] }

/-- The concrete constraints of the C5 witness. -/
def c5WitnessConstraints : LanguageConstraints :=
  { must_target := [⟨"lexeme:책", .vocab, ["책"], 1, false, none, none⟩] }

/-- Concrete settings for the C2 instance: new words enabled. -/
def c2Settings : PlannerSettings := { allow_new_words := true }

/-- Concrete candidate list for the C2 instance: one stretch lexeme. -/
def c2Candidates : List BandedItem := [⟨"lexeme:책", "책"⟩]

/-- Concrete banding for the C2 instance. -/
def c2Bands : List (String × Band) := [("lexeme:책", Band.stretch)]

/-- Concrete planner state for the C2 instance: one active (stage-1) new
word, so `plan_turn` appends a new-word target on top of a full budget. -/
def c2State : PlannerState :=
  { conversation_summary := "s",
    new_word_states := [("가방", ⟨"가방", "bag", 1, 1, 1, none⟩)] }

/-- Concrete request for the C3 instance: safe mode with a single
grammar-type must-target (no vocab target at all). -/
def c3Req : ConversationRequest :=
  { system_role := "r",
    conversation_state := ⟨"s", "", "", ""⟩,
    user_input := ⟨"응", none⟩,
    language_constraints :=
      { must_target := [⟨"gram:하면", .grammar, ["하면"], 1, false, none, none⟩] },
    generation_instructions := {} }

/-- Concrete parsed response for the C3 instance: a reply that uses no
surface form of the grammar target. -/
def c3Resp : GW.ConversationResponse :=
  { assistant_reply_ko := "네" }

/-! Helper lemmas. -/

theorem mem_pyDedupAux {α : Type} [DecidableEq α] (seen l : List α) (a : α) :
    a ∈ pyDedupAux seen l ↔ a ∈ l ∧ a ∉ seen := by
  induction l generalizing seen with
  | nil => simp [pyDedupAux]
  | cons x xs ih =>
    simp only [pyDedupAux]
    by_cases hx : x ∈ seen
    · rw [if_pos hx, ih]
      constructor
      · rintro ⟨h1, h2⟩
        exact ⟨List.mem_cons_of_mem _ h1, h2⟩
      · rintro ⟨h1, h2⟩
        rcases List.mem_cons.mp h1 with rfl | h1
        · exact absurd hx h2
        · exact ⟨h1, h2⟩
    · rw [if_neg hx]
      simp only [List.mem_cons, ih, List.mem_cons, not_or]
      constructor
      · rintro (rfl | ⟨h1, h2, h3⟩)
        · exact ⟨Or.inl rfl, hx⟩
        · exact ⟨Or.inr h1, h3⟩
      · rintro ⟨(rfl | h1), h2⟩
        · exact Or.inl rfl
        · by_cases hax : a = x
          · exact Or.inl hax
          · exact Or.inr ⟨h1, hax, h2⟩

theorem mem_pyDedup {α : Type} [DecidableEq α] (l : List α) (a : α) :
    a ∈ pyDedup l ↔ a ∈ l := by
  simp [pyDedup, mem_pyDedupAux]

theorem lookupA_pyInsert_self {β : Type} (d : List (String × β)) (k : String)
    (v : β) : lookupA (pyInsert d k v) k = some v := by
  induction d with
  | nil => simp [pyInsert, lookupA]
  | cons p rest ih =>
    obtain ⟨k0, w⟩ := p
    simp only [pyInsert]
    split
    · rename_i h
      simp [lookupA, h]
    · rename_i h
      simp [lookupA, h, ih]

theorem lookupA_pyInsert_other {β : Type} (d : List (String × β))
    (k k' : String) (v : β) (hne : k ≠ k') :
    lookupA (pyInsert d k v) k' = lookupA d k' := by
  induction d with
  | nil => simp [pyInsert, lookupA, hne]
  | cons p rest ih =>
    obtain ⟨k0, w⟩ := p
    simp only [pyInsert]
    split
    · rename_i h
      subst h
      simp [lookupA, hne]
    · simp only [lookupA]
      split
      · rfl
      · exact ih

/-! ### C6 — tokenizer regex

`_WORD_RE` was written `r"[\\w가-힣]+"`: inside the raw string `\\` is an
escaped backslash, so the class matches a literal backslash, the letter `w`
and Hangul syllables — not the intended `\w` (the spec's "alphanumeric or
Hangul"). Latin words and digit runs produce no tokens (making the
`token.isdigit()` branch of `validate_tokens` dead code); the sibling regex
`_LEXEME_RE = [A-Za-z0-9가-힣]+` in `snapshot.py` shows the intent. -/

/-- C6: the tokenizer drops Latin-letter words and digit runs entirely
(`"hello 123"` yields no token, against the claim's `["hello", "123"]`),
while Hangul runs — and stray `w`/backslash characters — do tokenize. -/
theorem tokenize_for_validation_drops_alphanumeric :
    tokenize_for_validation "hello 123" = [] ∧
      tokenize_for_validation "의자가 있어요" = ["의자가", "있어요"] ∧
      tokenize_for_validation "w3w" = ["w", "w"] := by
  decide

/-! ### C7 — session wrap output

`compute_session_wrap` accepts no new-word states and returns only
`strengths`, `reinforce` and `suggested_cards`; it never emits
`reinforced_words`, although its caller `ConversationSession.wrap` passes
`new_word_states=` (a `TypeError` at runtime) and `suggest.py` reads the
`reinforced_words` key from the wrap. -/

/-- C7: for every snapshot and mastery input, the wrap dict has exactly the
keys `strengths`, `reinforce`, `suggested_cards` — no `reinforced_words`
output exists for stage-4 new words to be emitted into. -/
theorem compute_session_wrap_has_no_reinforced_words
    (items : List SnapshotItem)
    (mastery : List (String × List (String × Int)))
    (n1 n2 n3 : Int) :
    (compute_session_wrap items mastery n1 n2 n3).map Prod.fst =
        ["strengths", "reinforce", "suggested_cards"] ∧
      "reinforced_words" ∉ (compute_session_wrap items mastery n1 n2 n3).map Prod.fst := by
  refine ⟨rfl, ?_⟩
  simp [compute_session_wrap]

/-! ### C1 — validate_tokens allowed set -/

theorem token_is_allowed_iff (t : String) (l : List String) :
    token_is_allowed t l = true ↔
      t ∈ l ∨ ∃ p ∈ JOSA_SUFFIXES, pyEndsWith t p ∧
        p.data.length < t.data.length ∧
        (⟨t.data.take (t.data.length - p.data.length)⟩ : String) ∈ l ∧ p ∈ l := by
  simp [token_is_allowed, List.any_eq_true, decide_eq_true_eq]

theorem mem_allowedSet (c : LanguageConstraints) (always : List String)
    (x : String) : x ∈ allowedSet c always ↔ codeAllowedMember c always x := by
  simp only [allowedSet, codeAllowedMember, List.mem_append, List.mem_flatMap]
  constructor
  · rintro (((h | h) | h) | h)
    · exact Or.inl h
    · exact Or.inr (Or.inl (by simpa using h))
    · exact Or.inr (Or.inr (Or.inr h))
    · exact Or.inr (Or.inr (Or.inl h))
  · rintro (h | h | h | h)
    · exact Or.inl (Or.inl (Or.inl h))
    · exact Or.inl (Or.inl (Or.inr (by simpa using h)))
    · exact Or.inr h
    · exact Or.inl (Or.inr h)

theorem josa_mem_base : ∀ p ∈ JOSA_SUFFIXES, p ∈ BASE_ALLOWED_SUPPORT := by
  decide

theorem codeTokenAllowed_iff (c : LanguageConstraints) (always : List String)
    (t : String) :
    codeTokenAllowed c always t ↔ token_is_allowed t (allowedSet c always) = true := by
  rw [token_is_allowed_iff]
  unfold codeTokenAllowed
  constructor
  · rintro (h | ⟨p, hp, he, hl, hs⟩)
    · exact Or.inl ((mem_allowedSet c always t).mpr h)
    · refine Or.inr ⟨p, hp, he, hl, (mem_allowedSet c always _).mpr hs, ?_⟩
      rw [mem_allowedSet]
      unfold codeAllowedMember
      exact Or.inr (Or.inr (Or.inl (josa_mem_base p hp)))
  · rintro (h | ⟨p, hp, he, hl, hs, _⟩)
    · exact Or.inl ((mem_allowedSet c always t).mp h)
    · exact Or.inr ⟨p, hp, he, hl, (mem_allowedSet c always _).mp hs⟩

theorem mem_validate_tokens (c : LanguageConstraints) (a f t : String) :
    t ∈ validate_tokens a f c ↔
      t ∈ tokenize_for_validation a ++ tokenize_for_validation f ∧
        ¬ pyIsDigit t ∧ ¬ token_is_allowed t (allowedSet c ALWAYS_ALLOWED) := by
  unfold validate_tokens
  rw [mem_pyDedup, List.mem_filter]
  simp [decide_eq_true_eq]

/-- C1 counterexample: with `allowed_stretch = ["가방"]` and empty other
pools, the claim's allowed set contains the token `가방` of the reply
`"가방"`, yet `validate_tokens` reports it unexpected — the code never adds
`allowed_stretch` (or `reinforced_words`) to its allowed set. -/
theorem validate_tokens_spec_allowed_cex :
    ¬ (∀ t ∈ tokenize_for_validation "가방" ++ tokenize_for_validation "",
        (t ∈ validate_tokens "가방" "" { allowed_stretch := ["가방"] } ↔
          ¬ pyIsDigit t ∧
            ¬ specTokenAllowed { allowed_stretch := ["가방"] } ALWAYS_ALLOWED t)) := by
  intro h
  have h2 := h "가방" (by decide)
  have hmem : "가방" ∈ validate_tokens "가방" "" { allowed_stretch := ["가방"] } := by
    decide
  exact absurd (h2.mp hmem) (by decide)

/-- C1 (amended): a token of the assistant/follow-up pair is reported
unexpected by `validate_tokens` iff it is not digit-only and not allowed,
where the allowed set is `allowed_support ∪ ⋃ must_target.surface_forms ∪
BASE_ALLOWED_SUPPORT ∪ always_allowed` — without the claimed
`allowed_stretch` and `reinforced_words` parts — and allowance admits a
known particle suffix whose stem is in the set. -/
theorem validate_tokens_unexpected_iff (c : LanguageConstraints) (a f t : String)
    (ht : t ∈ tokenize_for_validation a ++ tokenize_for_validation f) :
    t ∈ validate_tokens a f c ↔
      ¬ pyIsDigit t ∧ ¬ codeTokenAllowed c ALWAYS_ALLOWED t := by
  rw [mem_validate_tokens, codeTokenAllowed_iff]
  simp [ht]

/-- Witness for C1 at a concrete run: the deck word `의자` with empty
constraints is not allowed, hence reported. -/
theorem validate_tokens_unexpected_iff_witness :
    ("의자" ∈ tokenize_for_validation "의자" ++ tokenize_for_validation "") ∧
      ("의자" ∈ validate_tokens "의자" "" {} ↔
        ¬ pyIsDigit "의자" ∧ ¬ codeTokenAllowed {} ALWAYS_ALLOWED "의자") :=
  ⟨by decide, validate_tokens_unexpected_iff {} "의자" "" "의자" (by decide)⟩

/-! ### C4 — forgetting curve -/

theorem compute_retrievability_clamp (s e d : ℝ) (hs : 0 < s) (hd : 0 < d) :
    compute_retrievability s e d =
      max 0 (min 1 (((e / s) * ((0.9 : ℝ) ^ (1 / -d) - 1) + 1) ^ (-d))) := by
  unfold compute_retrievability
  rw [if_neg (by push_neg; exact ⟨hs, hd⟩)]
  dsimp only
  set r : ℝ := ((e / s) * ((0.9 : ℝ) ^ (1 / -d) - 1) + 1) ^ (-d) with hr
  split_ifs with h1 h2
  · rw [min_eq_right (by linarith), max_eq_left (by linarith)]
  · rw [min_eq_left (by linarith), max_eq_right (by norm_num)]
  · rw [min_eq_right (by linarith), max_eq_right (by linarith)]

/-- C4: `compute_retrievability` returns 0 for non-positive stability or
decay, otherwise the clamped forgetting-curve value; for positive stability
and decay and non-negative elapsed time it lies in `[0, 1]` and is
non-increasing in elapsed time. -/
theorem compute_retrievability_spec :
    (∀ s e d : ℝ, s ≤ 0 ∨ d ≤ 0 → compute_retrievability s e d = 0) ∧
      (∀ s e d : ℝ, 0 < s → 0 < d →
        compute_retrievability s e d =
          max 0 (min 1 (((e / s) * ((0.9 : ℝ) ^ (1 / -d) - 1) + 1) ^ (-d)))) ∧
      (∀ s e d : ℝ, 0 < s → 0 < d → 0 ≤ e →
        0 ≤ compute_retrievability s e d ∧ compute_retrievability s e d ≤ 1) ∧
      (∀ s d e₁ e₂ : ℝ, 0 < s → 0 < d → 0 ≤ e₁ → e₁ ≤ e₂ →
        compute_retrievability s e₂ d ≤ compute_retrievability s e₁ d) := by
  refine ⟨?_, compute_retrievability_clamp, ?_, ?_⟩
  · intro s e d h
    unfold compute_retrievability
    rw [if_pos h]
  · intro s e d hs hd _
    rw [compute_retrievability_clamp s e d hs hd]
    constructor
    · exact le_max_left 0 _
    · exact max_le (by norm_num) (min_le_left 1 _)
  · intro s d e₁ e₂ hs hd he₁ he
    rw [compute_retrievability_clamp s e₁ d hs hd,
      compute_retrievability_clamp s e₂ d hs hd]
    have hfac : (0 : ℝ) < (0.9 : ℝ) ^ (1 / -d) - 1 := by
      have hneg : (1 : ℝ) / -d < 0 := by
        apply div_neg_of_pos_of_neg one_pos
        linarith
      have := Real.one_lt_rpow_of_pos_of_lt_one_of_neg
        (by norm_num : (0 : ℝ) < 0.9) (by norm_num : (0.9 : ℝ) < 1) hneg
      linarith
    set F : ℝ := (0.9 : ℝ) ^ (1 / -d) - 1 with hF
    have hb₁ : (1 : ℝ) ≤ (e₁ / s) * F + 1 := by
      have : 0 ≤ (e₁ / s) * F :=
        mul_nonneg (div_nonneg he₁ hs.le) hfac.le
      linarith
    have hb : (e₁ / s) * F + 1 ≤ (e₂ / s) * F + 1 := by
      have hdiv : e₁ / s ≤ e₂ / s := by gcongr
      have := mul_le_mul_of_nonneg_right hdiv hfac.le
      linarith
    have hb₁pos : (0 : ℝ) < (e₁ / s) * F + 1 := by linarith
    have hb₂pos : (0 : ℝ) < (e₂ / s) * F + 1 := by linarith
    have hr : ((e₂ / s) * F + 1) ^ (-d) ≤ ((e₁ / s) * F + 1) ^ (-d) := by
      rw [Real.rpow_neg hb₁pos.le, Real.rpow_neg hb₂pos.le]
      have hpow : ((e₁ / s) * F + 1) ^ d ≤ ((e₂ / s) * F + 1) ^ d :=
        Real.rpow_le_rpow hb₁pos.le hb hd.le
      have hpos : (0 : ℝ) < ((e₁ / s) * F + 1) ^ d :=
        Real.rpow_pos_of_pos hb₁pos d
      exact inv_anti₀ hpos hpow
    exact max_le_max le_rfl (min_le_min le_rfl hr)

/-- Witness for C4 at concrete inputs. -/
theorem compute_retrievability_spec_witness :
    compute_retrievability 0 1 1 = 0 ∧
      (0 ≤ compute_retrievability 1 2 1 ∧ compute_retrievability 1 2 1 ≤ 1) ∧
      compute_retrievability 1 3 1 ≤ compute_retrievability 1 2 1 :=
  ⟨compute_retrievability_spec.1 0 1 1 (Or.inl le_rfl),
   compute_retrievability_spec.2.2.1 1 2 1 one_pos one_pos (by norm_num),
   compute_retrievability_spec.2.2.2 1 1 2 3 one_pos one_pos (by norm_num)
     (by norm_num)⟩

/-! ### C10 — telemetry counter bump -/

theorem applyDeltas_lookup_notin (deltas m : List (String × Int)) (k : String)
    (hk : k ∉ deltas.map Prod.fst) :
    lookupA (applyDeltas deltas m) k = lookupA m k := by
  induction deltas generalizing m with
  | nil => rfl
  | cons p rest ih =>
    obtain ⟨k0, d0⟩ := p
    simp only [List.map_cons, List.mem_cons, not_or] at hk
    simp only [applyDeltas]
    rw [ih _ hk.2, lookupA_pyInsert_other _ _ _ _ (fun h => hk.1 h.symm)]

theorem applyDeltas_lookup_mem (deltas m : List (String × Int)) (k : String)
    (d : Int) (hnd : (deltas.map Prod.fst).Nodup) (hmem : (k, d) ∈ deltas) :
    lookupA (applyDeltas deltas m) k = some ((lookupA m k).getD 0 + d) := by
  induction deltas generalizing m with
  | nil => cases hmem
  | cons p rest ih =>
    obtain ⟨k0, d0⟩ := p
    simp only [List.map_cons, List.nodup_cons] at hnd
    rcases List.mem_cons.mp hmem with heq | hrest
    · obtain ⟨rfl, rfl⟩ := Prod.mk.inj heq
      simp only [applyDeltas]
      rw [applyDeltas_lookup_notin _ _ _ hnd.1, lookupA_pyInsert_self]
    · have hk : k ≠ k0 := by
        intro h
        exact hnd.1 (h ▸ (List.mem_map.mpr ⟨(k, d), hrest, rfl⟩))
      simp only [applyDeltas]
      rw [ih _ hnd.2 hrest, lookupA_pyInsert_other _ _ _ _ (Ne.symm hk)]

/-- C10: `bump_item_cached` adds each delta to the (default-0) counter of
`item_id`, leaves the other counters of `item_id` and all other items
untouched, and upserts exactly the one row for `item_id` holding the final
counters. -/
theorem bump_item_cached_spec (cache : List (String × List (String × Int)))
    (item kind value : String) (deltas : List (String × Int))
    (hnd : (deltas.map Prod.fst).Nodup) :
    (∀ k d, (k, d) ∈ deltas →
        lookupA ((lookupA (bump_item_cached cache item kind value deltas).1 item).getD []) k
          = some ((lookupA ((lookupA cache item).getD []) k).getD 0 + d)) ∧
      (∀ k, k ∉ deltas.map Prod.fst →
        lookupA ((lookupA (bump_item_cached cache item kind value deltas).1 item).getD []) k
          = lookupA ((lookupA cache item).getD []) k) ∧
      (∀ other, other ≠ item →
        lookupA (bump_item_cached cache item kind value deltas).1 other
          = lookupA cache other) ∧
      (∃ m, (bump_item_cached cache item kind value deltas).2 = [⟨item, kind, value, m⟩] ∧
        lookupA (bump_item_cached cache item kind value deltas).1 item = some m) := by
  unfold bump_item_cached
  simp only [lookupA_pyInsert_self, Option.getD_some]
  refine ⟨?_, ?_, ?_, ?_⟩
  · intro k d hmem
    exact applyDeltas_lookup_mem deltas _ k d hnd hmem
  · intro k hk
    exact applyDeltas_lookup_notin deltas _ k hk
  · intro other hne
    exact lookupA_pyInsert_other _ _ _ _ (Ne.symm hne)
  · exact ⟨_, rfl, rfl⟩

/-- Witness for C10 at a concrete cache and delta mapping. -/
theorem bump_item_cached_spec_witness :
    ((("x", (3 : Int)) ∈ [("x", (3 : Int)), ("y", 1)]) →
        lookupA ((lookupA (bump_item_cached [("lexeme:의자", [("x", 2)])] "lexeme:의자"
          "lexeme" "의자" [("x", 3), ("y", 1)]).1 "lexeme:의자").getD []) "x"
          = some ((lookupA ((lookupA [("lexeme:의자", [("x", (2 : Int))])] "lexeme:의자").getD []) "x").getD 0 + 3)) ∧
      (∃ m, (bump_item_cached [("lexeme:의자", [("x", 2)])] "lexeme:의자"
          "lexeme" "의자" [("x", 3), ("y", 1)]).2 = [⟨"lexeme:의자", "lexeme", "의자", m⟩] ∧
        lookupA (bump_item_cached [("lexeme:의자", [("x", 2)])] "lexeme:의자"
          "lexeme" "의자" [("x", 3), ("y", 1)]).1 "lexeme:의자" = some m) :=
  ⟨fun h => (bump_item_cached_spec [("lexeme:의자", [("x", 2)])] "lexeme:의자"
      "lexeme" "의자" [("x", 3), ("y", 1)] (by decide)).1 "x" 3 h,
   (bump_item_cached_spec [("lexeme:의자", [("x", 2)])] "lexeme:의자"
      "lexeme" "의자" [("x", 3), ("y", 1)] (by decide)).2.2.2⟩

/-! ### C5 — observe_turn missed targets -/

theorem observeTargets_missed (T : Int) (uT aT : List String)
    (l : List MustTarget) (sched : List (String × Int)) :
    (observeTargets T uT aT l sched).2 =
      (l.filter (fun t => ! targetSatisfied uT aT t)).map (·.id) := by
  induction l generalizing sched with
  | nil => rfl
  | cons t rest ih =>
    simp only [observeTargets]
    by_cases hs : targetSatisfied uT aT t
    · rw [if_pos hs]
      simp [hs, ih]
    · rw [if_neg hs]
      simp only [List.filter_cons]
      simp [hs, ih]

theorem observeTargets_sched_stable (T : Int) (uT aT : List String)
    (l : List MustTarget) (sched : List (String × Int)) (id : String) (w : Int)
    (hw : lookupA sched id = some w) (hle : w ≤ T + 1) :
    lookupA (observeTargets T uT aT l sched).1 id = some w := by
  induction l generalizing sched with
  | nil => exact hw
  | cons t rest ih =>
    simp only [observeTargets]
    by_cases hs : targetSatisfied uT aT t
    · rw [if_pos hs]
      exact ih sched hw
    · rw [if_neg hs]
      by_cases hty : t.type ≠ TargetType.new_word
      · rw [if_pos hty]
        by_cases hid : t.id = id
        · subst hid
          apply ih
          rw [lookupA_pyInsert_self]
          rw [hw]
          simp only [Option.getD_some]
          rw [min_eq_left hle]
        · apply ih
          rw [lookupA_pyInsert_other _ _ _ _ hid]
          exact hw
      · rw [if_neg hty]
        exact ih sched hw

theorem observeTargets_sched_missed (T : Int) (uT aT : List String)
    (l : List MustTarget) (sched : List (String × Int)) (t : MustTarget)
    (hmem : t ∈ l) (hs : targetSatisfied uT aT t = false)
    (hty : t.type ≠ TargetType.new_word) :
    ∃ v, lookupA (observeTargets T uT aT l sched).1 t.id = some v ∧
      v ≤ T + 1 ∧
      (∀ old, lookupA sched t.id = some old → old ≤ T + 1 → v = old) := by
  induction l generalizing sched with
  | nil => cases hmem
  | cons h rest ih =>
    simp only [observeTargets]
    rcases List.mem_cons.mp hmem with rfl | hrest
    · rw [if_neg (by simp [hs])]
      rw [if_pos hty]
      set w := min ((lookupA sched t.id).getD (T + 1)) (T + 1) with hwdef
      have hw : lookupA (pyInsert sched t.id w) t.id = some w :=
        lookupA_pyInsert_self _ _ _
      refine ⟨w, ?_, min_le_right _ _, ?_⟩
      · exact observeTargets_sched_stable T uT aT rest _ t.id w hw
          (min_le_right _ _)
      · intro old hold hle
        rw [hwdef, hold]
        simp only [Option.getD_some]
        exact min_eq_left hle
    · by_cases hsat : targetSatisfied uT aT h
      · rw [if_pos hsat]
        exact ih sched hrest
      · rw [if_neg hsat]
        by_cases hhty : h.type ≠ TargetType.new_word
        · rw [if_pos hhty]
          by_cases hid : h.id = t.id
          · set w := min ((lookupA sched h.id).getD (T + 1)) (T + 1) with hwdef
            obtain ⟨v, hv1, hv2, hv3⟩ := ih (pyInsert sched h.id w) hrest
            refine ⟨v, hv1, hv2, ?_⟩
            intro old hold hle
            apply hv3
            · rw [← hid, lookupA_pyInsert_self]
              rw [← hid] at hold
              rw [hwdef, hold]
              simp only [Option.getD_some]
              rw [min_eq_left hle]
            · exact hle
          · obtain ⟨v, hv1, hv2, hv3⟩ :=
              ih (pyInsert sched h.id (min ((lookupA sched h.id).getD (T + 1)) (T + 1))) hrest
            refine ⟨v, hv1, hv2, ?_⟩
            intro old hold hle
            apply hv3
            · rw [lookupA_pyInsert_other _ _ _ _ hid]
              exact hold
            · exact hle
        · rw [if_neg hhty]
          exact ih sched hrest

/-- C5 counterexample: a missed `new_word` target is returned by
`observe_turn` but never rescheduled — `scheduled_reuse` has no entry for it,
against the claim that every returned id satisfies
`scheduled_reuse[id] ≤ turn_index + 1`. -/
theorem observe_turn_missed_cex :
    (observe_turn { conversation_summary := "s", turn_index := 1 }
        { must_target := [⟨"lexeme:가방", .new_word, ["가방"], 9/10, true,
            some 1, some "bag"⟩] }
        ⟨"", none⟩ "").2 = ["lexeme:가방"] ∧
      lookupA (observe_turn { conversation_summary := "s", turn_index := 1 }
        { must_target := [⟨"lexeme:가방", .new_word, ["가방"], 9/10, true,
            some 1, some "bag"⟩] }
        ⟨"", none⟩ "").1.scheduled_reuse "lexeme:가방" = none := by
  constructor <;> rfl

/-- C5 (amended): `observe_turn` returns exactly the ids of the must-targets
not satisfied by the turn (collocations need all surface forms among user and
assistant tokens, others any), and every returned id **whose target is not of
type new_word** ends with `scheduled_reuse[id] ≤ turn_index + 1`, an earlier
(sooner) existing schedule being preserved; missed new-word targets are
returned without being rescheduled. -/
theorem observe_turn_missed_spec (state : PlannerState)
    (c : LanguageConstraints) (u : UserInput) (reply : String) :
    (observe_turn state c u reply).2 =
        (c.must_target.filter (fun t =>
          ! targetSatisfied (tokenize_for_validation u.text_ko)
            (tokenize_for_validation reply) t)).map (·.id) ∧
      ∀ t ∈ c.must_target,
        targetSatisfied (tokenize_for_validation u.text_ko)
            (tokenize_for_validation reply) t = false →
        t.type ≠ TargetType.new_word →
        ∃ v, lookupA (observe_turn state c u reply).1.scheduled_reuse t.id = some v ∧
          v ≤ state.turn_index + 1 ∧
          (∀ old, lookupA state.scheduled_reuse t.id = some old →
            old ≤ state.turn_index + 1 → v = old) := by
  constructor
  · exact observeTargets_missed state.turn_index _ _ c.must_target
      state.scheduled_reuse
  · intro t hmem hs hty
    exact observeTargets_sched_missed state.turn_index _ _ c.must_target
      state.scheduled_reuse t hmem hs hty

/-- Witness for C5: a missed vocab target gets rescheduled to
`turn_index + 1`. -/
theorem observe_turn_missed_spec_witness :
    ((observe_turn c5WitnessState c5WitnessConstraints ⟨"네", none⟩ "네").2 =
      (c5WitnessConstraints.must_target.filter (fun t =>
          ! targetSatisfied (tokenize_for_validation "네")
            (tokenize_for_validation "네") t)).map (·.id)) ∧
      (∃ v, lookupA (observe_turn c5WitnessState c5WitnessConstraints
            ⟨"네", none⟩ "네").1.scheduled_reuse "lexeme:책" = some v ∧
        v ≤ c5WitnessState.turn_index + 1 ∧
        (∀ old, lookupA c5WitnessState.scheduled_reuse "lexeme:책" = some old →
          old ≤ c5WitnessState.turn_index + 1 → v = old)) :=
  ⟨(observe_turn_missed_spec c5WitnessState c5WitnessConstraints ⟨"네", none⟩ "네").1,
   (observe_turn_missed_spec c5WitnessState c5WitnessConstraints ⟨"네", none⟩ "네").2
     ⟨"lexeme:책", .vocab, ["책"], 1, false, none, none⟩ (by decide) (by decide)
     (by decide)⟩

/-! ### C8 — rewrite marker collapse -/

theorem data_mk (l : List Char) : (⟨l⟩ : String).data = l := rfl

theorem marker_not_prefix_straddle (m u t : List Char)
    (hno : ∀ k, k < m.length → 0 < k → m.drop k ≠ m.take (m.length - k))
    (hu : u ≠ []) (hnp : ¬ (m <+: u)) : ¬ (m <+: u ++ (m ++ t)) := by
  intro h
  by_cases hlen : m.length ≤ u.length
  · apply hnp
    have heq : m = (u ++ (m ++ t)).take m.length := List.prefix_iff_eq_take.mp h
    rw [List.take_append_of_le_length hlen] at heq
    exact heq ▸ List.take_prefix m.length u
  · push_neg at hlen
    obtain ⟨r, hr⟩ := h
    have hdrop : m ++ t = m.drop u.length ++ r := by
      have hcong := congrArg (List.drop u.length) hr
      rw [List.drop_left, List.drop_append_of_le_length hlen.le] at hcong
      exact hcong.symm
    have hpre : m.drop u.length <+: m ++ t := ⟨r, hdrop.symm⟩
    have heq : m.drop u.length = (m ++ t).take (m.drop u.length).length :=
      List.prefix_iff_eq_take.mp hpre
    rw [List.length_drop, List.take_append_of_le_length (by omega)] at heq
    exact hno u.length hlen (List.length_pos.mpr hu) heq

theorem firstOcc_marker_append (m p t : List Char) (hm : m ≠ [])
    (hno : ∀ k, k < m.length → 0 < k → m.drop k ≠ m.take (m.length - k))
    (hnone : GW.firstOcc m p = none) :
    GW.firstOcc m (p ++ (m ++ t)) = some p.length := by
  induction p with
  | nil =>
    simp only [List.nil_append, List.length_nil]
    cases m with
    | nil => exact absurd rfl hm
    | cons c m' =>
      show GW.firstOcc (c :: m') (c :: (m' ++ t)) = some 0
      simp only [GW.firstOcc]
      have hp : (c :: m').isPrefixOf (c :: (m' ++ t)) = true :=
        List.isPrefixOf_iff_prefix.mpr (List.prefix_append (c :: m') t)
      rw [if_pos hp]
  | cons c p' ih =>
    simp only [GW.firstOcc] at hnone
    by_cases h0 : m.isPrefixOf (c :: p')
    · rw [if_pos h0] at hnone
      cases hnone
    · rw [if_neg h0] at hnone
      have h1 : GW.firstOcc m p' = none := by
        cases h : GW.firstOcc m p' with
        | none => rfl
        | some i => rw [h] at hnone; cases hnone
      show GW.firstOcc m (c :: (p' ++ (m ++ t))) = some (p'.length + 1)
      simp only [GW.firstOcc]
      rw [if_neg ?hcond]
      case hcond =>
        intro hpre
        rw [List.isPrefixOf_iff_prefix] at hpre h0
        exact marker_not_prefix_straddle m (c :: p') t hno (by simp) h0 hpre
      rw [show GW.firstOcc m (p' ++ (m ++ t)) = some p'.length from ih h1]
      rfl

theorem firstOcc_take (m : List Char) (hm : m ≠ []) :
    ∀ (l : List Char) (i : Nat), GW.firstOcc m l = some i →
      GW.firstOcc m (l.take i) = none := by
  have hnil : ¬ m.isPrefixOf ([] : List Char) = true := by
    rw [List.isPrefixOf_iff_prefix]
    intro hp
    exact hm (List.prefix_nil.mp hp)
  intro l
  induction l with
  | nil =>
    intro i h
    simp only [GW.firstOcc] at h
    rw [if_neg hnil] at h
    cases h
  | cons c t ih =>
    intro i h
    simp only [GW.firstOcc] at h
    by_cases h0 : m.isPrefixOf (c :: t)
    · rw [if_pos h0] at h
      cases h
      simp only [List.take_zero, GW.firstOcc]
      rw [if_neg hnil]
    · rw [if_neg h0] at h
      cases hrec : GW.firstOcc m t with
      | none => rw [hrec] at h; cases h
      | some i' =>
        rw [hrec] at h
        rw [show Option.map (fun x => x + 1) (some i') = some (i' + 1) from rfl] at h
        cases h
        simp only [List.take_succ_cons, GW.firstOcc]
        rw [if_neg ?hcond2]
        case hcond2 =>
          intro hpre
          apply h0
          rw [List.isPrefixOf_iff_prefix] at hpre ⊢
          exact hpre.trans (List.cons_prefix_cons.mpr ⟨rfl, List.take_prefix i' t⟩)
        rw [ih i' hrec]
        rfl

theorem firstOcc_stripList_none (m l : List Char) (hm : m ≠ []) :
    GW.firstOcc m (GW.stripList m l) = none := by
  unfold GW.stripList
  cases h : GW.firstOcc m l with
  | none => exact h
  | some i => exact firstOcc_take m hm l i h

theorem stripList_append_marker (m l x : List Char) (hm : m ≠ [])
    (hno : ∀ k, k < m.length → 0 < k → m.drop k ≠ m.take (m.length - k)) :
    GW.stripList m (GW.stripList m l ++ (m ++ x)) = GW.stripList m l := by
  have h2 := firstOcc_marker_append m (GW.stripList m l) x hm hno
    (firstOcc_stripList_none m l hm)
  conv_lhs => rw [GW.stripList]
  rw [h2]
  exact List.take_left _ _

theorem marker_no_border :
    ∀ k, k < GW.REWRITE_MARKER.data.length → 0 < k →
      GW.REWRITE_MARKER.data.drop k ≠
        GW.REWRITE_MARKER.data.take (GW.REWRITE_MARKER.data.length - k) := by
  decide

/-- C8: rewriting an already rewritten request yields the same system role as
rewriting the original request — the marker text is replaced, not stacked, so
the prompt does not grow across any sequence of rewrites. -/
theorem rewrite_request_marker_collapse (q : ConversationRequest)
    (r1 r2 : String) :
    (GW.rewriteRequest (GW.rewriteRequest q r1) r2).system_role =
      (GW.rewriteRequest q r2).system_role := by
  unfold GW.rewriteRequest
  dsimp only
  unfold GW.withRewriteDirective
  apply String.ext
  simp only [String.data_append, data_mk, List.append_assoc]
  rw [stripList_append_marker GW.REWRITE_MARKER.data q.system_role.data _
    (by decide) marker_no_border]

/-! ### C9 — JSON round trip -/

theorem allStr_map (xs : List String) :
    (xs.map TJ.Json.str).all TJ.isStr = true := by
  induction xs with
  | nil => rfl
  | cons x r ih => simp [TJ.isStr, ih]

theorem filterMapStr_map (xs : List String) :
    (xs.map TJ.Json.str).filterMap TJ.asStr = xs := by
  induction xs with
  | nil => rfl
  | cons x r ih => simpa [TJ.asStr] using ih

theorem parseStrList_map (key : String) (fields : List (String × TJ.Json))
    (xs : List String)
    (hlk : lookupA fields key = some (.arr (xs.map .str))) :
    TJ.parseStrList fields key = .ok xs := by
  unfold TJ.parseStrList
  rw [hlk]
  dsimp only
  rw [if_pos (allStr_map xs), filterMapStr_map xs]

theorem glossPairs_map (l : List (String × String)) :
    (l.map (fun p => (p.1, TJ.Json.str p.2))).filterMap TJ.glossEntry = l := by
  induction l with
  | nil => rfl
  | cons p r ih => simpa [TJ.glossEntry] using ih

theorem filterMap_asStr_str (xs : List String) :
    xs.filterMap (TJ.asStr ∘ TJ.Json.str) = xs := by
  induction xs with
  | nil => rfl
  | cons x r ih => simp [TJ.asStr, ih, List.filterMap_cons]

theorem filterMap_glossEntry_str (wg : List (String × String)) :
    wg.filterMap (TJ.glossEntry ∘ fun p => (p.1, TJ.Json.str p.2)) = wg := by
  induction wg with
  | nil => rfl
  | cons p r ih => simp [TJ.glossEntry, ih, List.filterMap_cons]

theorem pyInsert_notin {β : Type} (d : List (String × β)) (k : String) (v : β)
    (hk : k ∉ d.map Prod.fst) : pyInsert d k v = d ++ [(k, v)] := by
  induction d with
  | nil => rfl
  | cons p rest ih =>
    simp only [List.map_cons, List.mem_cons, not_or] at hk
    simp only [pyInsert]
    rw [if_neg (Ne.symm hk.1)]
    rw [ih hk.2]
    rfl

theorem foldl_pyInsert (wg : List (String × String)) :
    ∀ acc : List (String × String), (wg.map Prod.fst).Nodup →
      (∀ k ∈ wg.map Prod.fst, k ∉ acc.map Prod.fst) →
      wg.foldl (fun d p => pyInsert d p.1 p.2) acc = acc ++ wg := by
  induction wg with
  | nil => intro acc _ _; simp
  | cons p rest ih =>
    intro acc hnd hdisj
    obtain ⟨k, v⟩ := p
    simp only [List.map_cons, List.nodup_cons] at hnd
    simp only [List.foldl_cons]
    rw [pyInsert_notin acc k v (hdisj k (by simp))]
    rw [ih (acc ++ [(k, v)]) hnd.2 ?hdisj2]
    case hdisj2 =>
      intro k' hk'
      simp only [List.map_append, List.mem_append, List.map_cons, List.map_nil,
        List.mem_singleton, not_or]
      refine ⟨hdisj k' (by simp [hk']), ?_⟩
      intro heq
      exact hnd.1 (heq ▸ hk')
    simp

theorem pyDictPairs_eq_self (wg : List (String × String))
    (h : (wg.map Prod.fst).Nodup) : TJ.pyDictPairs wg = wg := by
  unfold TJ.pyDictPairs
  rw [foldl_pyInsert wg [] h (by simp)]
  rfl

/-- C9 counterexample: a response whose `word_glosses` repeat a word (such
responses are themselves produced by `from_json_dict` from the list form)
does not round-trip — serialisation builds a dict, collapsing the repeated
word to its last gloss. -/
theorem response_roundtrip_cex :
    TJ.from_json_dict (TJ.to_json_dict
        ⟨"네", Option.none, Option.none, [], [], [("a", "x"), ("a", "y")]⟩) =
      Except.ok (⟨"네", Option.none, Option.none, [], [],
        [("a", "y")]⟩ : TJ.ConversationResponse) ∧
      (⟨"네", Option.none, Option.none, [], [],
        [("a", "y")]⟩ : TJ.ConversationResponse) ≠
        ⟨"네", Option.none, Option.none, [], [], [("a", "x"), ("a", "y")]⟩ := by
  exact ⟨rfl, by decide⟩

/-- C9 (amended): parsing the serialisation returns the response unchanged
for every response whose required `assistant_reply_ko` is non-empty and whose
`word_glosses` words are pairwise distinct (a Python dict cannot hold a
repeated word, so only such responses serialise faithfully). -/
theorem response_roundtrip (r : TJ.ConversationResponse)
    (h1 : r.assistant_reply_ko ≠ "")
    (h2 : (r.word_glosses.map Prod.fst).Nodup) :
    TJ.from_json_dict (TJ.to_json_dict r) = Except.ok r := by
  obtain ⟨a, mf, si, tu, ut, wg⟩ := r
  simp only at h1 h2
  have hwg := pyDictPairs_eq_self wg h2
  rcases mf with _ | ⟨ty, ko, en⟩ <;> rcases si with _ | s <;>
    (try cases ty) <;>
    simp [TJ.to_json_dict, TJ.from_json_dict, TJ.requiredStr, TJ.jget,
      TJ.parseMicroFeedback, TJ.parseStrList, TJ.parseWordGlosses, lookupA,
      TJ.MicroFeedbackType.toStr, allStr_map, filterMapStr_map, glossPairs_map,
      filterMap_asStr_str, filterMap_glossEntry_str, hwg, h1]

/-- Witness for C9 at a concrete response. -/
theorem response_roundtrip_witness :
    ((⟨"네", Option.none, Option.none, ["lexeme:의자"], [],
        [("의자", "chair")]⟩ : TJ.ConversationResponse).assistant_reply_ko ≠ "") ∧
      TJ.from_json_dict (TJ.to_json_dict
        (⟨"네", Option.none, Option.none, ["lexeme:의자"], [],
          [("의자", "chair")]⟩ : TJ.ConversationResponse)) =
        Except.ok (⟨"네", Option.none, Option.none, ["lexeme:의자"], [],
          [("의자", "chair")]⟩ : TJ.ConversationResponse) :=
  ⟨by decide,
   response_roundtrip
     ⟨"네", Option.none, Option.none, ["lexeme:의자"], [], [("의자", "chair")]⟩
     (by decide) (by decide)⟩

/-! ### C2 — plan_turn target budget

`plan_turn` never returns in the source: the `LanguageConstraints` and
`ConversationState` constructor calls at planner.py lines 388 and 413 pass
keyword arguments the `types.py` dataclasses reject, so every call raises
`TypeError` — while the repository's own test
(`test_planner_generates_constraints_from_deck`) asserts on the returned
constraints. On top of the crash, the selection logic reserves no slot for
the active new-word target the claim's budget presupposes. -/

/-- C2: at the failing input (`must_target_count = 1`, one stretch
candidate, one active stage-1 new word) the selection logic — evaluated
under the intended field set, since the source raises `TypeError` at
planner.py line 388 before returning — fills the whole budget with a vocab
target and then appends the new-word target beyond it: two targets where
the claim's budget allows one, with no slot reserved. -/
theorem plan_turn_no_reserved_slot :
    ((plan_turn c2Settings c2Candidates c2Bands c2State ⟨"응", none⟩
        1 60 3).1.2.1.must_target.map (·.type)) =
      [TargetType.vocab, TargetType.new_word] := by
  decide

/-! ### C3 — missing_targets rewrite

The `missing_targets` rewrite is never actually issued by the source: on
the rewrite path `_rewrite_request` (gateway.py line 266) reads
`language_constraints.require_new_vocab`, absent from the `types.py`
dataclass (`AttributeError`); the final-attempt return (gateway.py lines
87–96) reads and re-passes `suggested_user_reply_ko` on the `types.py`
response built by `from_json_dict`, which has no such field; and any
attempt that passes the first check crashes in the two-argument
`validate_tokens` calls (gateway.py lines 102/108) against `validation.py`'s
three positional parameters — while the repository's own gateway tests
expect `run_turn` to complete. Moreover the guard itself is
`must_target` non-empty of any type, not the claim's vocab-only trigger. -/

/-- C3: at the failing input the attempt step — evaluated under the
intended semantics, since the source crashes as described above — issues
the `missing_targets` rewrite although the single must-target is a grammar
target, against the claim's vocab-only trigger; the source itself raises
before issuing any rewrite. -/
theorem run_turn_missing_targets_grammar_trigger :
    GW.runTurnStep (fun _ _ => none) c3Req c3Resp 0 2 =
        GW.TurnAction.rewrite "missing_targets" ∧
      (c3Req.language_constraints.must_target.map (·.type)) =
        [TargetType.grammar] :=
  ⟨rfl, rfl⟩

end Anki
